import Mathlib

/-!
Verification of the two micro-benchmark drivers of the repository:
the csv2 tokenizing benchmark driver (`samples/csv_parsing/csv2_parse.cpp`)
and the allocation benchmark driver (`samples/make_shared/make_shared.cpp`).

The drivers themselves are embedded from the source.  The external
collaborators they call — the csv2 tokenizer, the benchmark harness and
the reference-counted shared-ownership pointer — are not part of the
visible sources and are modelled from the specification where noted.
-/

namespace Criterion

/-- Modelled from the spec: the csv2 tokenizer's row iteration.  The
mapped buffer is split into rows at newline characters; a trailing
newline terminates the last row rather than opening an extra empty one.
`splitRowsAux` carries the (reversed) characters of the row read so far. -/
def splitRowsAux : List Char → List Char → List (List Char)
  | [], acc => if acc.isEmpty then [] else [acc.reverse]
  | c :: rest, acc =>
    if c = '\n' then acc.reverse :: splitRowsAux rest []
    else splitRowsAux rest (c :: acc)

/-- Modelled from the spec: the sequence of rows of a mapped buffer. -/
def splitRows (content : List Char) : List (List Char) :=
  splitRowsAux content []

/-- Modelled from the spec: the csv2 tokenizer's cell iteration within one
row.  The row is split into cells at the delimiter `d`; occurrences of the
delimiter inside a region opened and closed by the quote character `q` do
not split.  `inQuote` tracks whether the scan is inside a quoted region and
`acc` carries the (reversed) characters of the cell read so far. -/
def splitCellsAux (d q : Char) : List Char → Bool → List Char → List (List Char)
  | [], _, acc => [acc.reverse]
  | c :: rest, inQuote, acc =>
    if c = q then splitCellsAux d q rest (!inQuote) (c :: acc)
    else if c = d && !inQuote then acc.reverse :: splitCellsAux d q rest inQuote []
    else splitCellsAux d q rest inQuote (c :: acc)

/-- Modelled from the spec: the cells of one row, for delimiter `d` and
quote character `q`. -/
def splitCells (d q : Char) (row : List Char) : List (List Char) :=
  splitCellsAux d q row false []

/-- The rows-of-cells view of a mapped buffer that the driver's nested
`for` loops traverse, with the configuration fixed in the source:
delimiter `,`, quote character `"`, no header row. -/
def csvRows (content : List Char) : List (List (List Char)) :=
  (splitRows content).map (splitCells ',' '"')

/-- The driver's inner loop `for (const auto cell : row) cells += 1`,
embedded with the counter passed explicitly. -/
def cellLoop : List (List Char) → Nat → Nat
  | [], cells => cells
  | _ :: rest, cells => cellLoop rest (cells + 1)

/-- The driver's outer loop `for (const auto row : csv)`, which increments
`rows` and then runs the inner cell loop, with both counters passed
explicitly. -/
def rowLoop : List (List (List Char)) → Nat → Nat → Nat × Nat
  | [], rows, cells => (rows, cells)
  | row :: rest, rows, cells => rowLoop rest (rows + 1) (cellLoop row cells)

/-- One full traversal of the tokenizer by the counting loop, starting
from the per-iteration initialisation `rows{0}, cells{0}`. -/
def countRowsCells (content : List Char) : Nat × Nat :=
  rowLoop (csvRows content) 0 0

/-- A file system, as seen through `Reader::mmap`: a path either maps to
the file's contents or fails to map. -/
def FileSystem : Type := String → Option (List Char)

/-- What one benchmark iteration of the driver's lambda body produces:
the lines it writes to standard output, and the final counter values when
mapping succeeded (`none` records that the `else` branch ran and no
counting work was performed). -/
def benchmarkBody (fs : FileSystem) (path : String) :
    List String × Option (Nat × Nat) :=
  match fs path with
  | some content => ([], some (countRowsCells content))
  | none => (["error: Failed to open " ++ path], none)

/-- Modelled from the spec: the benchmark harness runs the supplied body
once per timed iteration; `benchIterations` lists the outcome of each of
`n` iterations.  The harness only times and reports; it does not alter
the body's behaviour or the process exit status. -/
def benchIterations (fs : FileSystem) (path : String) : Nat → List (List String × Option (Nat × Nat))
  | 0 => []
  | n + 1 => benchmarkBody fs path :: benchIterations fs path n

/-- The observable result of running the tokenizing driver's `main`:
process exit code, the lines written to standard output and standard
error, whether the benchmark was run, and the counters of the (single
modelled) benchmark iteration. -/
structure DriverResult where
  exitCode : Nat
  stdout : List String
  stderr : List String
  benchmarkRan : Bool
  counts : Option (Nat × Nat)
deriving Repr, DecidableEq

/-- The literal usage string printed on a wrong argument count. -/
def usageMessage : String := "Usage: ./main <csv_file>"

/-- The tokenizing driver's `main`, embedded from the source.  `args` is
the argument vector (so `args.length` is `argc`); both diagnostics go
through `std::cout`, hence to `stdout`; `EXIT_FAILURE` is modelled as 1;
falling off the end of `main` yields exit code 0. -/
def csvMain (args : List String) (fs : FileSystem) : DriverResult :=
  if args.length ≠ 2 then
    { exitCode := 1, stdout := [usageMessage], stderr := [],
      benchmarkRan := false, counts := none }
  else
    let path := args.getD 1 ""
    let (out, counts) := benchmarkBody fs path
    { exitCode := 0, stdout := out, stderr := [],
      benchmarkRan := true, counts := counts }

/-- The sequence of intermediate `(rows, cells)` counter states that the
driver's nested loops pass through during one traversal, one entry per
executed increment, starting from a given state.  Per the source, each
row first runs `rows += 1` and then one `cells += 1` per cell of the row.
`cellSteps` lists the states after each of the `k` cell increments of one
row. -/
def cellSteps (rows cells : Nat) : Nat → List (Nat × Nat)
  | 0 => []
  | k + 1 => (rows, cells + 1) :: cellSteps rows (cells + 1) k

/-- The states after each increment executed by the outer loop, given the
number of cells of each remaining row and the current counter state. -/
def rowSteps : List Nat → Nat → Nat → List (Nat × Nat)
  | [], _, _ => []
  | k :: rest, rows, cells =>
    (rows + 1, cells) :: (cellSteps (rows + 1) cells k ++ rowSteps rest (rows + 1) (cells + k))

/-- The full trace of counter states of one benchmark iteration: the
initial state `rows{0}, cells{0}` followed by the state after every
increment of the traversal. -/
def counterTrace (content : List Char) : List (Nat × Nat) :=
  (0, 0) :: rowSteps ((csvRows content).map List.length) 0 0

/-- A single counter update of the driver's loops: exactly one of the two
counters grows by one. -/
def counterStep (p q : Nat × Nat) : Prop :=
  q = (p.1 + 1, p.2) ∨ q = (p.1, p.2 + 1)

instance : DecidableRel counterStep := fun p q => by
  unfold counterStep; infer_instance

/-! ## Allocation benchmark driver (`samples/make_shared/make_shared.cpp`) -/

/-- The fixed-shape record of the allocation benchmark.  The float field
`data_3` holds the literal `3.1415f` and is never computed with, so it is
modelled by the literal's decimal value as a rational. -/
structure Foo where
  data_1 : String := "1234567891012131415161718192021"
  data_2 : Int := 5
  data_3 : Rat := 31415 / 10000
deriving Repr, DecidableEq

/-- Modelled from the spec: a reference-counted shared-ownership handle,
observed through its strong-owner count and the record it owns. -/
structure SharedPtr (α : Type) where
  strong : Nat
  value : α
deriving Repr, DecidableEq

/-- Modelled from the spec: the "allocate then wrap" path.  `new Foo()`
produces a record with the default member initialisers; the
`std::shared_ptr` constructor then wraps it with one strong owner. -/
def sharedPtrFromRaw {α : Type} (x : α) : SharedPtr α :=
  { strong := 1, value := x }

/-- Modelled from the spec: the combined allocate-and-construct path.
`std::make_shared` performs a single allocation holding control block and
payload and value-initialises the record in place, yielding one strong
owner. -/
def makeShared {α : Type} (mk : Unit → α) : SharedPtr α :=
  { strong := 1, value := mk () }

/-- The body of the `shared_ptr/new` benchmark case, embedded from the
source: `std::shared_ptr<Foo> foo_ptr = std::shared_ptr<Foo>(new Foo());`. -/
def benchNewBody : Unit → SharedPtr Foo :=
  fun _ => sharedPtrFromRaw { }

/-- The body of the `shared_ptr/make_shared` benchmark case, embedded from
the source: `std::shared_ptr<Foo> foo_ptr = std::make_shared<Foo>();`. -/
def benchMakeSharedBody : Unit → SharedPtr Foo :=
  fun _ => makeShared (fun _ => { })

/-- Modelled from the spec: what leaving the iteration's scope does to the
handle — the strong count drops by one, and the record is destroyed
exactly when it reaches zero. -/
def scopeEndRelease {α : Type} (p : SharedPtr α) : Nat × Bool :=
  let s := p.strong - 1
  (s, s = 0)

/-- The construct/destroy events of one timed iteration of an allocation
benchmark case: the body constructs one record behind a handle, and the
handle goes out of scope at the end of the iteration. -/
structure IterEvents where
  constructs : Nat
  destroys : Nat
  finalStrong : Nat
deriving Repr, DecidableEq

/-- One timed iteration of a benchmark case. -/
def runIteration (body : Unit → SharedPtr Foo) : IterEvents :=
  let p := body ()
  let (s, destroyed) := scopeEndRelease p
  { constructs := 1, destroys := if destroyed then 1 else 0, finalStrong := s }

/-- Modelled from the spec: the harness runs the case body for `n` timed
iterations; the totals accumulate the construct/destroy events, and
`finalStrong` is the strong count left by the most recent iteration. -/
def runBenchmarkTotals (body : Unit → SharedPtr Foo) : Nat → IterEvents
  | 0 => { constructs := 0, destroys := 0, finalStrong := 0 }
  | n + 1 =>
    let t := runBenchmarkTotals body n
    let e := runIteration body
    { constructs := t.constructs + e.constructs,
      destroys := t.destroys + e.destroys,
      finalStrong := e.finalStrong }

/-! ## Concrete inputs used by witnesses -/

/-- A file system in which no path can be mapped. -/
def fsEmpty : FileSystem := fun _ => none

/-- A file system holding the spec's two-row sample file at `data.csv`. -/
def fsSample : FileSystem :=
  fun p => if p = "data.csv" then some ("a,b,c\n1,2,3\n".toList) else none

/-! ## Helper lemmas -/

/-- Every iteration of the benchmark produces the same outcome: element
`i < n` of `benchIterations fs path n` is `benchmarkBody fs path`. -/
theorem benchIterations_get (fs : FileSystem) (path : String) :
    ∀ n i, i < n → (benchIterations fs path n).get? i = some (benchmarkBody fs path) := by
  intro n
  induction n with
  | zero => intro i hi; exact absurd hi (Nat.not_lt_zero i)
  | succ n ih =>
    intro i hi
    cases i with
    | zero => rfl
    | succ i => exact ih i (Nat.lt_of_succ_lt_succ hi)

/-- The cell-increment steps of one row form a `counterStep` chain from
the state before them to any chain continuing from the state after them. -/
theorem chain_cellSteps (k : Nat) : ∀ (rows cells : Nat) (L : List (Nat × Nat)),
    List.Chain counterStep (rows, cells + k) L →
    List.Chain counterStep (rows, cells) (cellSteps rows cells k ++ L) := by
  induction k with
  | zero => intro rows cells L h; simpa using h
  | succ k ih =>
    intro rows cells L h
    simp only [cellSteps, List.cons_append]
    refine List.Chain.cons (Or.inr rfl) ?_
    refine ih rows (cells + 1) L ?_
    have heq : cells + 1 + k = cells + (k + 1) := by omega
    rw [heq]; exact h

/-- The whole increment sequence of the counting loops forms a
`counterStep` chain from the initial counter state. -/
theorem chain_rowSteps (ks : List Nat) : ∀ (rows cells : Nat),
    List.Chain counterStep (rows, cells) (rowSteps ks rows cells) := by
  induction ks with
  | nil => intro rows cells; exact List.Chain.nil
  | cons k rest ih =>
    intro rows cells
    simp only [rowSteps]
    refine List.Chain.cons (Or.inl rfl) ?_
    exact chain_cellSteps k (rows + 1) cells _ (ih (rows + 1) (cells + k))

/-- A benchmark case whose body yields a handle with exactly one strong
owner performs one construct and one destroy per iteration. -/
theorem runBenchmarkTotals_counts (body : Unit → SharedPtr Foo)
    (h : (body ()).strong = 1) (n : Nat) :
    (runBenchmarkTotals body n).constructs = n ∧
    (runBenchmarkTotals body n).destroys = n := by
  induction n with
  | zero => exact ⟨rfl, rfl⟩
  | succ n ih =>
    simp only [runBenchmarkTotals, runIteration, scopeEndRelease, h]
    constructor
    · simpa using ih.1
    · simpa using ih.2

/-! ## Claim theorems -/

/-- C1: whenever the tokenizing driver is invoked with an argument count
other than 2, it prints exactly the usage string, exits with a non-zero
status, runs no benchmark and performs no counting. -/
theorem usage_on_wrong_argc (args : List String) (fs : FileSystem)
    (h : args.length ≠ 2) :
    (csvMain args fs).stdout = [usageMessage] ∧
    (csvMain args fs).exitCode ≠ 0 ∧
    (csvMain args fs).benchmarkRan = false ∧
    (csvMain args fs).counts = none := by
  simp [csvMain, h]

/-- Witness for C1 at the concrete invocation with no path argument. -/
theorem usage_on_wrong_argc_witness :
    (["./main"] : List String).length ≠ 2 ∧
    ((csvMain ["./main"] fsEmpty).stdout = [usageMessage] ∧
     (csvMain ["./main"] fsEmpty).exitCode ≠ 0 ∧
     (csvMain ["./main"] fsEmpty).benchmarkRan = false ∧
     (csvMain ["./main"] fsEmpty).counts = none) :=
  ⟨by decide, usage_on_wrong_argc ["./main"] fsEmpty (by decide)⟩

/-- C2: one full traversal of the tokenizer over `a,b,c\n1,2,3\n` with
delimiter `,`, quote `"` and no header yields 2 rows and 6 cells. -/
theorem counts_two_rows_six_cells :
    countRowsCells ("a,b,c\n1,2,3\n".toList) = (2, 6) ∧
    (csvMain ["./main", "data.csv"] fsSample).counts = some (2, 6) := by
  constructor <;> decide

/-- C3: when mapping the path fails, the driver emits the error line
naming the path and performs no counting work in that iteration. -/
theorem mapping_failure_reports_and_skips (fs : FileSystem) (path : String)
    (h : fs path = none) :
    benchmarkBody fs path = (["error: Failed to open " ++ path], none) ∧
    (csvMain ["./main", path] fs).stdout = ["error: Failed to open " ++ path] ∧
    (csvMain ["./main", path] fs).counts = none := by
  simp [csvMain, benchmarkBody, h]

/-- Witness for C3 at a path no file system entry maps. -/
theorem mapping_failure_reports_and_skips_witness :
    fsEmpty "missing.csv" = none ∧
    (benchmarkBody fsEmpty "missing.csv" = (["error: Failed to open missing.csv"], none) ∧
     (csvMain ["./main", "missing.csv"] fsEmpty).stdout = ["error: Failed to open missing.csv"] ∧
     (csvMain ["./main", "missing.csv"] fsEmpty).counts = none) :=
  ⟨rfl, mapping_failure_reports_and_skips fsEmpty "missing.csv" rfl⟩

/-- C4: with exactly one path argument the driver's exit status is zero,
even when mapping the path fails. -/
theorem exit_zero_on_correct_argc (args : List String) (fs : FileSystem)
    (h : args.length = 2) :
    (csvMain args fs).exitCode = 0 := by
  simp [csvMain, h]

/-- Witness for C4 at an invocation whose path cannot be mapped. -/
theorem exit_zero_on_correct_argc_witness :
    (["./main", "missing.csv"] : List String).length = 2 ∧
    (csvMain ["./main", "missing.csv"] fsEmpty).exitCode = 0 :=
  ⟨by decide, exit_zero_on_correct_argc ["./main", "missing.csv"] fsEmpty (by decide)⟩

/-- C5: the two allocation benchmark bodies produce equal shared-ownership
handles — same owned record, same field values, same strong count. -/
theorem new_equals_make_shared :
    benchNewBody () = benchMakeSharedBody () ∧ (benchNewBody ()).strong = 1 := by
  exact ⟨rfl, rfl⟩

/-- C6: over `n` timed iterations each allocation benchmark case performs
exactly `n` construct/destroy cycles, and every iteration leaves the
handle's strong count at zero. -/
theorem alloc_cases_n_cycles (n : Nat) :
    (runBenchmarkTotals benchNewBody n).constructs = n ∧
    (runBenchmarkTotals benchNewBody n).destroys = n ∧
    (runBenchmarkTotals benchMakeSharedBody n).constructs = n ∧
    (runBenchmarkTotals benchMakeSharedBody n).destroys = n ∧
    (runIteration benchNewBody).finalStrong = 0 ∧
    (runIteration benchMakeSharedBody).finalStrong = 0 :=
  ⟨(runBenchmarkTotals_counts benchNewBody rfl n).1,
   (runBenchmarkTotals_counts benchNewBody rfl n).2,
   (runBenchmarkTotals_counts benchMakeSharedBody rfl n).1,
   (runBenchmarkTotals_counts benchMakeSharedBody rfl n).2,
   rfl, rfl⟩

/-- Witness for C6 at three iterations of each case. -/
theorem alloc_cases_n_cycles_witness :
    (runBenchmarkTotals benchNewBody 3).constructs = 3 ∧
    (runBenchmarkTotals benchNewBody 3).destroys = 3 ∧
    (runBenchmarkTotals benchMakeSharedBody 3).constructs = 3 ∧
    (runBenchmarkTotals benchMakeSharedBody 3).destroys = 3 ∧
    (runIteration benchNewBody).finalStrong = 0 ∧
    (runIteration benchMakeSharedBody).finalStrong = 0 :=
  alloc_cases_n_cycles 3

/-- C7: one full traversal of the tokenizer over the single-field file
`x\n` yields 1 row and 1 cell. -/
theorem counts_single_field :
    countRowsCells ("x\n".toList) = (1, 1) := by
  decide

/-- C8: the counting computation is deterministic — every pass of the
benchmark on the same mapped file yields the same outcome, so any two
iterations agree. -/
theorem counts_deterministic (fs : FileSystem) (path : String) (n i j : Nat)
    (hi : i < n) (hj : j < n) :
    (benchIterations fs path n).get? i = (benchIterations fs path n).get? j := by
  rw [benchIterations_get fs path n i hi, benchIterations_get fs path n j hj]

/-- Witness for C8: two passes over the sample file agree. -/
theorem counts_deterministic_witness :
    0 < 2 ∧ 1 < 2 ∧
    (benchIterations fsSample "data.csv" 2).get? 0 =
      (benchIterations fsSample "data.csv" 2).get? 1 :=
  ⟨by decide, by decide,
   counts_deterministic fsSample "data.csv" 2 0 1 (by decide) (by decide)⟩

/-- C9: in every benchmark iteration the counters start at `(0, 0)` and
each subsequent state is obtained by incrementing exactly one counter by
one; in particular both counters are non-negative throughout. -/
theorem counters_start_zero_increment_only (content : List Char) :
    (counterTrace content).head? = some (0, 0) ∧
    List.Chain' counterStep (counterTrace content) ∧
    ∀ p ∈ counterTrace content, 0 ≤ p.1 ∧ 0 ≤ p.2 := by
  refine ⟨rfl, ?_, fun p _ => ⟨Nat.zero_le _, Nat.zero_le _⟩⟩
  show List.Chain counterStep (0, 0) (rowSteps ((csvRows content).map List.length) 0 0)
  exact chain_rowSteps _ 0 0

/-- Witness for C9 at the single-field sample file. -/
theorem counters_start_zero_increment_only_witness :
    (counterTrace ("x\n".toList)).head? = some (0, 0) ∧
    List.Chain' counterStep (counterTrace ("x\n".toList)) :=
  ⟨(counters_start_zero_increment_only ("x\n".toList)).1,
   (counters_start_zero_increment_only ("x\n".toList)).2.1⟩

/-- C10: both diagnostics of the tokenizing driver — the usage message
and the mapping-failure error line — go to standard output, and nothing
is ever written to standard error. -/
theorem diagnostics_on_stdout (args : List String) (fs : FileSystem) :
    (csvMain args fs).stderr = [] ∧
    (args.length ≠ 2 → (csvMain args fs).stdout = [usageMessage]) ∧
    (args.length = 2 → fs (args.getD 1 "") = none →
      (csvMain args fs).stdout = ["error: Failed to open " ++ args.getD 1 ""]) := by
  by_cases h : args.length = 2
  · refine ⟨?_, fun hne => absurd h hne, fun _ hm => ?_⟩
    · unfold csvMain
      rw [if_neg (by omega)]
    · unfold csvMain
      rw [if_neg (by omega)]
      simp only [benchmarkBody, hm]
  · refine ⟨?_, fun _ => ?_, fun h2 => absurd h2 h⟩
    · simp [csvMain, h]
    · simp [csvMain, h]

/-- Witness for C10 at the two concrete diagnostic situations. -/
theorem diagnostics_on_stdout_witness :
    (csvMain ["./main"] fsEmpty).stderr = [] ∧
    (csvMain ["./main", "missing.csv"] fsEmpty).stderr = [] ∧
    (csvMain ["./main", "missing.csv"] fsEmpty).stdout =
      ["error: Failed to open missing.csv"] :=
  ⟨(diagnostics_on_stdout ["./main"] fsEmpty).1,
   (diagnostics_on_stdout ["./main", "missing.csv"] fsEmpty).1,
   (diagnostics_on_stdout ["./main", "missing.csv"] fsEmpty).2.2 rfl rfl⟩

end Criterion
